import Mathlib

/-!
# Verification of the student-mentorship app's core subsystems

Shallow embedding of the server code of the mentorship marketplace:
the data model (shared/schema.ts), the in-memory store
(server/storage.ts), the booking conflict checker and updated handlers
(server/utils/bookingValidator.ts, shipped inside the repository's
implementation guide), the JWT token service (server/auth_new.ts), the
HTTP route handlers and the WebSocket hub (server/routes.ts).

Timestamps are modelled as integers (milliseconds since epoch), matching
Date.getTime(). JavaScript Map iteration order is insertion order, so
each map-backed table is modelled as a list in insertion order.
-/

namespace MentorApp

/-- Role of a user, student or mentor, from shared/schema.ts (users.role). -/
inductive Role where
  | student
  | mentor
deriving DecidableEq, Repr

/-- Row of the users table from shared/schema.ts. -/
structure User where
  id : String
  username : String
  email : String
  password : String
  role : Role
deriving DecidableEq, Repr

/-- Status of a session booking, from shared/schema.ts (sessions.status). -/
inductive SessionStatus where
  | pending
  | confirmed
  | completed
  | cancelled
deriving DecidableEq, Repr

/-- Row of the sessions table from shared/schema.ts; scheduledTime in ms. -/
structure Session where
  id : String
  studentId : String
  mentorId : String
  subject : String
  scheduledTime : Int
  status : SessionStatus
deriving DecidableEq, Repr

/-- Row of the messages table from shared/schema.ts; timestamp in ms. -/
structure Message where
  id : String
  senderId : String
  receiverId : String
  content : String
  timestamp : Int
deriving DecidableEq, Repr

/-- Row of the profiles table from shared/schema.ts. -/
structure Profile where
  id : String
  userId : String
  bio : Option String
  subjects : Option (List String)
  availability : Option String
deriving DecidableEq, Repr

/-- State of the MemStorage class of server/storage.ts, with JS Map
iteration order (insertion order) modelled by lists. -/
structure Storage where
  users : List User
  profiles : List Profile
  sessions : List Session
  messages : List Message
deriving Repr

/-- Model of MemStorage.getUser (server/storage.ts). -/
def getUser (store : Storage) (id : String) : Option User :=
  store.users.find? (fun u => u.id == id)

/-- Model of MemStorage.getProfile (server/storage.ts). -/
def getProfile (store : Storage) (userId : String) : Option Profile :=
  store.profiles.find? (fun p => p.userId == userId)

/-- Model of MemStorage.getAllMentors (server/storage.ts). -/
def getAllMentors (store : Storage) : List User :=
  store.users.filter (fun u => u.role == .mentor)

/-- Model of MemStorage.createUser (server/storage.ts): a fresh id and
the submitted fields, inserted into the users map. -/
def createUser (store : Storage) (newId username email password : String)
    (role : Role) : User × Storage :=
  let u : User :=
    { id := newId, username := username, email := email,
      password := password, role := role }
  (u, { store with users := store.users ++ [u] })

/-- Model of MemStorage.getUserSessions (server/storage.ts): all sessions
where the given user is the student or the mentor. -/
def getUserSessions (store : Storage) (userId : String) : List Session :=
  store.sessions.filter (fun s => s.studentId == userId || s.mentorId == userId)

/-- Guard of the skip branch inside checkBookingConflict
(server/utils/bookingValidator.ts): cancelled or completed sessions are
skipped. -/
def isTerminal (s : Session) : Bool :=
  s.status == .cancelled || s.status == .completed

/-- One iteration of the checkBookingConflict loop: the session is not
skipped and its start lies strictly within the window (in ms) of the
requested start. -/
def conflictHit (windowMs : Nat) (requestStart : Int) (s : Session) : Bool :=
  !(isTerminal s) && (s.scheduledTime - requestStart).natAbs < windowMs

/-- Model of checkBookingConflict (server/utils/bookingValidator.ts):
fetch the mentor's sessions via getUserSessions, skip cancelled and
completed ones, and report a conflict iff some remaining session starts
strictly within windowMinutes * 60 * 1000 ms of the proposed time.
The windowMinutes argument is CONFLICT_WINDOW_MINUTES (default 30),
kept as a parameter. -/
def checkBookingConflict (windowMinutes : Nat) (store : Storage)
    (mentorId : String) (scheduledTime : Int) : Bool :=
  (getUserSessions store mentorId).any
    (conflictHit (windowMinutes * 60 * 1000) scheduledTime)

/-- Model of MemStorage.createSession (server/storage.ts): a fresh id,
status pending, inserted into the sessions map. -/
def createSession (store : Storage) (newId studentId mentorId subject : String)
    (scheduledTime : Int) : Session × Storage :=
  let s : Session :=
    { id := newId, studentId := studentId, mentorId := mentorId,
      subject := subject, scheduledTime := scheduledTime, status := .pending }
  (s, { store with sessions := store.sessions ++ [s] })

/-- Model of MemStorage.getSession (server/storage.ts). -/
def getSession (store : Storage) (id : String) : Option Session :=
  store.sessions.find? (fun s => s.id == id)

/-- Model of MemStorage.updateSessionStatus (server/storage.ts): look the
session up by id; if absent return undefined, else overwrite the map
entry with the status replaced. -/
def updateSessionStatus (store : Storage) (id : String)
    (status : SessionStatus) : Option Session × Storage :=
  match store.sessions.find? (fun s => s.id == id) with
  | none => (none, store)
  | some s =>
      let updated := { s with status := status }
      (some updated,
       { store with
          sessions := store.sessions.map (fun x => if x.id == id then updated else x) })

/-- Stable insertion by strictly-smaller timestamp, used to model the JS
Array.prototype.sort call with comparator a.timestamp - b.timestamp,
which sorts ascending and is stable. -/
def insertByTs (m : Message) : List Message → List Message
  | [] => [m]
  | x :: xs => if m.timestamp < x.timestamp then m :: x :: xs else x :: insertByTs m xs

/-- Stable ascending-by-timestamp sort, model of the comparator
(a, b) => a.timestamp - b.timestamp in server/storage.ts. -/
def sortByTsAsc (l : List Message) : List Message :=
  l.foldr insertByTs []

/-- Model of MemStorage.getMessagesBetweenUsers (server/storage.ts): all
messages exchanged between the two users, sorted ascending by timestamp
(oldest first). The method takes no limit and no cursor. -/
def getMessagesBetweenUsers (store : Storage) (userId1 userId2 : String) :
    List Message :=
  sortByTsAsc (store.messages.filter (fun msg =>
    (msg.senderId == userId1 && msg.receiverId == userId2) ||
    (msg.senderId == userId2 && msg.receiverId == userId1)))

/-- Model of MemStorage.createMessage (server/storage.ts): fresh id,
server-assigned timestamp, inserted into the messages map. -/
def createMessage (store : Storage) (newId senderId receiverId content : String)
    (now : Int) : Message × Storage :=
  let m : Message :=
    { id := newId, senderId := senderId, receiverId := receiverId,
      content := content, timestamp := now }
  (m, { store with messages := store.messages ++ [m] })

/-- Model of MemStorage.getConversationPartners (server/storage.ts), the
id-collection pass: a JS Set keeps first-insertion order, so the partner
ids are accumulated left to right without duplicates. -/
def conversationPartnerIds (msgs : List Message) (userId : String) : List String :=
  msgs.foldl (fun acc m =>
    if m.senderId == userId then
      (if acc.contains m.receiverId then acc else acc ++ [m.receiverId])
    else if m.receiverId == userId then
      (if acc.contains m.senderId then acc else acc ++ [m.senderId])
    else acc) []

/-- Model of MemStorage.getConversationPartners (server/storage.ts):
resolve each collected partner id to a user, dropping unknown ids. -/
def getConversationPartners (store : Storage) (userId : String) : List User :=
  (conversationPartnerIds store.messages userId).filterMap (getUser store)

/-! ## The WebSocket hub of server/routes.ts

The userConnections map from user id to live socket is the registry;
sockets are identified by numeric handles. -/

/-- The Hub registry: the userConnections JS Map of server/routes.ts,
from user id to socket handle, in insertion order. -/
abbrev Registry := List (String × Nat)

/-- Lookup in the userConnections map (Map.get). -/
def regLookup (r : Registry) (k : String) : Option Nat :=
  (r.find? (fun p => p.1 == k)).map (fun p => p.2)

/-- Insertion into the userConnections map (Map.set): replace in place if
the key is present, else append. -/
def regSet (r : Registry) (k : String) (v : Nat) : Registry :=
  if r.any (fun p => p.1 == k) then
    r.map (fun p => if p.1 == k then (k, v) else p)
  else r ++ [(k, v)]

/-- Deletion from the userConnections map (Map.delete). -/
def regDelete (r : Registry) (k : String) : Registry :=
  r.filter (fun p => !(p.1 == k))

/-- Parsed WebSocket events accepted by the message handler in
server/routes.ts: a join event carrying a client-chosen user id, and a
sendMessage event carrying sender, receiver and content. -/
inductive WsEvent where
  | join (userId : String)
  | sendMessage (senderId receiverId content : String)
deriving DecidableEq, Repr

/-- Per-connection and shared state visible to the handlers registered in
wss.on connection (server/routes.ts): the connection-local userId
variable, the shared userConnections registry, and the store. -/
structure WsState where
  localUserId : Option String
  registry : Registry
  store : Storage

/-- Outcome of one run of the ws message handler: the successor state,
the user ids whose live socket was pushed a message frame, and whether
the handler closed the connection. -/
structure WsStepResult where
  state : WsState
  sentTo : List String
  closed : Bool

/-- Model of the ws.on message handler registered in server/routes.ts for
a connection with handle self. A join event stores the client-supplied
user id in the local variable and registers this socket under it. A
sendMessage event persists the message via createMessage with the
client-supplied senderId and then pushes the saved message to the sender
and receiver sockets found in the registry (when open, modelled by
membership in openConns). The handler never validates senderId against
the local user id and never closes the connection. -/
def handleWsMessage (self : Nat) (openConns : List Nat) (st : WsState)
    (ev : WsEvent) (newMsgId : String) (now : Int) : WsStepResult :=
  match ev with
  | .join uid =>
      { state := { st with localUserId := some uid,
                           registry := regSet st.registry uid self },
        sentTo := [], closed := false }
  | .sendMessage senderId receiverId content =>
      let res := createMessage st.store newMsgId senderId receiverId content now
      let sent1 := match regLookup st.registry senderId with
        | some h => if openConns.contains h then [senderId] else []
        | none => []
      let sent2 := match regLookup st.registry receiverId with
        | some h => if openConns.contains h then [receiverId] else []
        | none => []
      { state := { st with store := res.2 },
        sentTo := sent1 ++ sent2, closed := false }

/-- Model of the ws.on close handler in server/routes.ts: if the
connection-local userId variable is set, delete that key from the
registry. The handle self of the closing socket is in scope but the
handler does not compare it with the registered socket. -/
def handleWsClose (self : Nat) (st : WsState) : WsState :=
  match st.localUserId with
  | none => st
  | some uid => { st with registry := regDelete st.registry uid }

/-! ## HTTP route handlers of server/routes.ts (success and error paths) -/

/-- Reply of a session endpoint: HTTP status plus the session body sent
on success. -/
structure SessionReply where
  status : Nat
  body : Option Session
deriving DecidableEq, Repr

/-- Model of the POST /api/sessions/book handler in server/routes.ts:
reject non-students with 403, otherwise create the session immediately
and return it (res.json, status 200). The handler never consults
checkBookingConflict. -/
def bookSessionRoute (store : Storage) (caller : User)
    (newId mentorId subject : String) (scheduledTime : Int) :
    SessionReply × Storage :=
  if caller.role != .student then ({ status := 403, body := none }, store)
  else
    let res := createSession store newId caller.id mentorId subject scheduledTime
    ({ status := 200, body := some res.1 }, res.2)

/-- Model of the updated bookSessionHandler given in the repository's
implementation guide (SECURITY_IMPLEMENTATION_GUIDE, section G): run
checkBookingConflict first and fail with a 409 CustomError when it
reports a conflict, creating the session (status 201) otherwise. -/
def bookSessionHandler (windowMinutes : Nat) (store : Storage) (caller : User)
    (newId mentorId subject : String) (scheduledTime : Int) :
    SessionReply × Storage :=
  if checkBookingConflict windowMinutes store mentorId scheduledTime then
    ({ status := 409, body := none }, store)
  else
    let res := createSession store newId caller.id mentorId subject scheduledTime
    ({ status := 201, body := some res.1 }, res.2)

/-- Model of the PUT /api/sessions/:id/confirm handler in
server/routes.ts: 404 if the session is unknown, 403 if the caller is
not its mentor, else updateSessionStatus to confirmed. -/
def confirmSessionRoute (store : Storage) (callerId sessionId : String) :
    SessionReply × Storage :=
  match getSession store sessionId with
  | none => ({ status := 404, body := none }, store)
  | some s =>
      if s.mentorId != callerId then ({ status := 403, body := none }, store)
      else
        let res := updateSessionStatus store sessionId .confirmed
        ({ status := 200, body := res.1 }, res.2)

/-- Model of the PUT /api/sessions/:id/cancel handler in
server/routes.ts: 404 if the session is unknown, 403 if the caller is
neither the student nor the mentor, else updateSessionStatus to
cancelled. -/
def cancelSessionRoute (store : Storage) (callerId sessionId : String) :
    SessionReply × Storage :=
  match getSession store sessionId with
  | none => ({ status := 404, body := none }, store)
  | some s =>
      if s.studentId != callerId && s.mentorId != callerId then
        ({ status := 403, body := none }, store)
      else
        let res := updateSessionStatus store sessionId .cancelled
        ({ status := 200, body := res.1 }, res.2)

/-! ## Token service of server/auth_new.ts

A signed JWT is modelled as its payload plus the key it was signed with;
verification checks the key and the expiry clock. -/

/-- Token kind, the type claim of the payload in server/auth_new.ts. -/
inductive TokenType where
  | access
  | refresh
deriving DecidableEq, Repr

/-- The TokenPayload interface of server/auth_new.ts; iat and exp in
seconds, as produced by jsonwebtoken. -/
structure TokenPayload where
  id : String
  email : String
  role : Role
  type : TokenType
  iat : Int
  exp : Int
deriving DecidableEq, Repr

/-- A token produced by jwt.sign: its decoded payload together with the
secret it was signed with. Signature checking is modelled as comparing
that secret with the verifier's secret. -/
structure SignedToken where
  payload : TokenPayload
  signedWith : String
deriving DecidableEq, Repr

/-- Model of generateAccessToken (server/auth_new.ts): sign the payload
carrying id, email, role and type access with JWT_SECRET, with the
configured expiry (ACCESS_TOKEN_EXPIRY, 15 minutes by default) applied
from the issue instant. -/
def generateAccessToken (secret : String) (expirySec : Int) (now : Int)
    (u : User) : SignedToken :=
  { payload :=
      { id := u.id, email := u.email, role := u.role, type := .access,
        iat := now, exp := now + expirySec },
    signedWith := secret }

/-- Model of generateRefreshToken (server/auth_new.ts): same payload
shape with type refresh and the refresh expiry. -/
def generateRefreshToken (secret : String) (expirySec : Int) (now : Int)
    (u : User) : SignedToken :=
  { payload :=
      { id := u.id, email := u.email, role := u.role, type := .refresh,
        iat := now, exp := now + expirySec },
    signedWith := secret }

/-- Model of verifyToken (server/auth_new.ts): jwt.verify succeeds when
the signature matches the secret and the token is not yet expired at the
verification instant, returning the decoded payload; otherwise the catch
branch returns null. -/
def verifyToken (secret : String) (now : Int) (t : SignedToken) :
    Option TokenPayload :=
  if t.signedWith == secret && now < t.payload.exp then some t.payload else none

/-- Model of verifyAccessToken (server/auth_new.ts): verifyToken, then
require the decoded type claim to be access. -/
def verifyAccessToken (secret : String) (now : Int) (t : SignedToken) :
    Option TokenPayload :=
  match verifyToken secret now t with
  | some d => if d.type == .access then some d else none
  | none => none

/-! ## JSON bodies produced by res.json in server/routes.ts

The bodies are modelled as a JSON syntax tree so that the absence of a
password entry is a statement about the serialized response, not about
Lean record types. -/

mutual
/-- JSON value as serialized by res.json. -/
inductive Json where
  | str (s : String) : Json
  | num (n : Int) : Json
  | null : Json
  | arr (items : JsonList) : Json
  | obj (fields : JsonFields) : Json
/-- List of JSON values (array elements). -/
inductive JsonList where
  | nil : JsonList
  | cons (hd : Json) (tl : JsonList) : JsonList
/-- Ordered key-value entries of a JSON object. -/
inductive JsonFields where
  | nil : JsonFields
  | cons (key : String) (val : Json) (tl : JsonFields) : JsonFields
end

mutual
/-- True when no object anywhere inside the value has an entry named k. -/
def hasNoKey (k : String) : Json → Bool
  | .str _ => true
  | .num _ => true
  | .null => true
  | .arr items => hasNoKeyList k items
  | .obj fields => hasNoKeyFields k fields
/-- List version of hasNoKey. -/
def hasNoKeyList (k : String) : JsonList → Bool
  | .nil => true
  | .cons hd tl => hasNoKey k hd && hasNoKeyList k tl
/-- Field version of hasNoKey: every key differs from k and every value
recursively satisfies hasNoKey. -/
def hasNoKeyFields (k : String) : JsonFields → Bool
  | .nil => true
  | .cons key v tl => !(key == k) && hasNoKey k v && hasNoKeyFields k tl
end

/-- Conversion of a Lean list of JSON values into a JSON array body. -/
def JsonList.ofList : List Json → JsonList
  | [] => .nil
  | x :: xs => .cons x (JsonList.ofList xs)

/-- Concatenation of JSON object entries, modelling object spread. -/
def JsonFields.append : JsonFields → JsonFields → JsonFields
  | .nil, r => r
  | .cons k v tl, r => .cons k v (JsonFields.append tl r)

/-- Serialization of a role value. -/
def roleText : Role → String
  | .student => "student"
  | .mentor => "mentor"

/-- Serialization of a session status value. -/
def statusText : SessionStatus → String
  | .pending => "pending"
  | .confirmed => "confirmed"
  | .completed => "completed"
  | .cancelled => "cancelled"

/-- Object entries produced by spreading userWithoutPassword, the rest
pattern of the destructuring that removes the password field in
server/routes.ts: every User field except password. -/
def publicUserFields (u : User) : JsonFields :=
  .cons "id" (.str u.id)
    (.cons "username" (.str u.username)
      (.cons "email" (.str u.email)
        (.cons "role" (.str (roleText u.role)) .nil)))

/-- A user serialized with the password field stripped. -/
def jsonOfPublicUser (u : User) : Json :=
  .obj (publicUserFields u)

/-- Serialization of an optional string column (null when absent). -/
def jsonOfOptStr : Option String → Json
  | none => .null
  | some s => .str s

/-- Serialization of a profile row. -/
def jsonOfProfile (p : Profile) : Json :=
  .obj (.cons "id" (.str p.id)
    (.cons "userId" (.str p.userId)
      (.cons "bio" (jsonOfOptStr p.bio)
        (.cons "subjects"
          (match p.subjects with
           | none => Json.null
           | some l => Json.arr (JsonList.ofList (l.map Json.str)))
          (.cons "availability" (jsonOfOptStr p.availability) .nil)))))

/-- Object entries of a serialized session row. -/
def sessionFields (s : Session) : JsonFields :=
  .cons "id" (.str s.id)
    (.cons "studentId" (.str s.studentId)
      (.cons "mentorId" (.str s.mentorId)
        (.cons "subject" (.str s.subject)
          (.cons "scheduledTime" (.num s.scheduledTime)
            (.cons "status" (.str (statusText s.status)) .nil)))))

/-- Success body of POST /api/auth/register in server/routes.ts: the
object with the password-stripped user and the token. -/
def registerResponseBody (u : User) (token : String) : Json :=
  .obj (.cons "user" (jsonOfPublicUser u) (.cons "token" (.str token) .nil))

/-- Success body of POST /api/auth/login in server/routes.ts: the object
with the password-stripped user and the token. -/
def loginResponseBody (u : User) (token : String) : Json :=
  .obj (.cons "user" (jsonOfPublicUser u) (.cons "token" (.str token) .nil))

/-- One element of the GET /api/mentors response in server/routes.ts:
the mentor spread without password, plus the profile entry; a JS
undefined profile is dropped from the serialized object. -/
def mentorWithProfileBody (m : User) (p : Option Profile) : Json :=
  .obj (JsonFields.append (publicUserFields m)
    (match p with
     | none => .nil
     | some pr => .cons "profile" (jsonOfProfile pr) .nil))

/-- Body of GET /api/mentors in server/routes.ts: every mentor with its
profile, passwords stripped. -/
def mentorsResponseBody (store : Storage) : Json :=
  .arr (JsonList.ofList ((getAllMentors store).map
    (fun m => mentorWithProfileBody m (getProfile store m.id))))

/-- Success body of GET /api/mentors/:id in server/routes.ts. -/
def mentorDetailResponseBody (m : User) (p : Option Profile) : Json :=
  mentorWithProfileBody m p

/-- One element of the GET /api/sessions/me response in
server/routes.ts: the session spread plus student and mentor entries,
each password-stripped; a missing user serializes as an omitted key. -/
def sessionWithUsersBody (store : Storage) (s : Session) : Json :=
  .obj (JsonFields.append (sessionFields s)
    (JsonFields.append
      (match getUser store s.studentId with
       | none => .nil
       | some u => .cons "student" (jsonOfPublicUser u) .nil)
      (match getUser store s.mentorId with
       | none => .nil
       | some u => .cons "mentor" (jsonOfPublicUser u) .nil)))

/-- Body of GET /api/sessions/me in server/routes.ts. -/
def mySessionsResponseBody (store : Storage) (userId : String) : Json :=
  .arr (JsonList.ofList ((getUserSessions store userId).map
    (sessionWithUsersBody store)))

/-- Body of GET /api/conversations in server/routes.ts: every
conversation partner with the password field stripped. -/
def conversationsResponseBody (store : Storage) (userId : String) : Json :=
  .arr (JsonList.ofList ((getConversationPartners store userId).map
    jsonOfPublicUser))

/-- Success body of GET /api/users/:id in server/routes.ts: the user with
the password field stripped. -/
def userLookupResponseBody (u : User) : Json :=
  jsonOfPublicUser u

/-! ## Theorems -/

/-- C1 fixture: a single pending booking for mentor m1 at instant 0. -/
def c1Session : Session :=
  { id := "s1", studentId := "st1", mentorId := "m1", subject := "Math",
    scheduledTime := 0, status := .pending }

/-- C1 fixture store holding only the booking above. -/
def c1Store : Storage :=
  { users := [], profiles := [], sessions := [c1Session], messages := [] }

/-- C1: for a mentor all of whose non-terminal bookings sit at instant T
(and at least one such booking exists), checkBookingConflict at a
proposed instant reports a conflict iff the distance to T is strictly
below the window (windowMinutes converted to ms); a distance exactly
equal to the window is not a conflict. -/
theorem claim_C1 (w : Nat) (store : Storage) (m : String) (T Tp : Int)
    (h1 : ∀ s ∈ (getUserSessions store m).filter (fun s => !(isTerminal s)),
       s.scheduledTime = T)
    (h2 : (getUserSessions store m).filter (fun s => !(isTerminal s)) ≠ []) :
    checkBookingConflict w store m Tp = true ↔ (T - Tp).natAbs < w * 60 * 1000 := by
  unfold checkBookingConflict
  rw [List.any_eq_true]
  constructor
  · rintro ⟨s, hs, hhit⟩
    unfold conflictHit at hhit
    rw [Bool.and_eq_true] at hhit
    obtain ⟨hnt, hlt⟩ := hhit
    have hmemf : s ∈ (getUserSessions store m).filter (fun s => !(isTerminal s)) :=
      List.mem_filter.mpr ⟨hs, hnt⟩
    rw [h1 s hmemf] at hlt
    exact of_decide_eq_true hlt
  · intro hlt
    obtain ⟨s, hmemf⟩ := List.exists_mem_of_ne_nil _ h2
    have hparts := List.mem_filter.mp hmemf
    refine ⟨s, hparts.1, ?_⟩
    unfold conflictHit
    rw [Bool.and_eq_true]
    refine ⟨hparts.2, ?_⟩
    rw [h1 s hmemf]
    exact decide_eq_true hlt

/-- C1 witness: in the fixture store, with the default 30-minute window,
a proposal 29 minutes after the existing booking is a conflict. -/
theorem claim_C1_witness :
    checkBookingConflict 30 c1Store "m1" 1740000 = true :=
  (claim_C1 30 c1Store "m1" 0 1740000 (by decide) (by decide)).mpr (by decide)

/-- C10: getMessagesBetweenUsers is symmetric in the two user ids: the
membership filter is a disjunction of the two orientations, so swapping
the arguments filters the same messages, and the sort is unchanged. -/
theorem claim_C10 (store : Storage) (u1 u2 : String) :
    getMessagesBetweenUsers store u1 u2 = getMessagesBetweenUsers store u2 u1 := by
  unfold getMessagesBetweenUsers
  exact congrArg sortByTsAsc (List.filter_congr (fun m _ => Bool.or_comm _ _))

/-- A store with no rows, for the fixtures below. -/
def emptyStorage : Storage :=
  { users := [], profiles := [], sessions := [], messages := [] }

/-- C2 fixture: the booking student. -/
def c2Student : User :=
  { id := "st1", username := "stu", email := "stu@example.com",
    password := "hash", role := .student }

/-- C2 fixture: an existing pending booking for mentor m1 at instant 0. -/
def c2Session : Session :=
  { id := "s1", studentId := "st1", mentorId := "m1", subject := "Math",
    scheduledTime := 0, status := .pending }

/-- C2 fixture store. -/
def c2Store : Storage :=
  { users := [c2Student], profiles := [], sessions := [c2Session], messages := [] }

/-- C2: evaluation at the failing input. Although checkBookingConflict
reports a conflict for mentor m1 at the exact instant of the existing
pending booking, the wired POST /api/sessions/book handler of
server/routes.ts answers 200 (not 409) and creates a second session:
the route never consults the conflict checker. -/
theorem claim_C2 :
    checkBookingConflict 30 c2Store "m1" 0 = true ∧
    (bookSessionRoute c2Store c2Student "s2" "m1" "Physics" 0).1.status = 200 ∧
    (bookSessionRoute c2Store c2Student "s2" "m1" "Physics" 0).2.sessions.length = 2 := by
  decide

/-- C3 fixture: a hub state whose connection 1 is authenticated (joined)
as user A, with an otherwise empty store. -/
def c3State : WsState :=
  { localUserId := some "A", registry := [("A", 1)], store := emptyStorage }

/-- C3: evaluation at the failing input. A connection joined as user A
sends a sendMessage event with senderId B: the server/routes.ts handler
persists the message with sender B and does not close the connection
(no senderId validation exists). -/
theorem claim_C3 :
    (handleWsMessage 1 [1] c3State (.sendMessage "B" "C" "hello") "msg1" 5).closed
        = false ∧
    ((handleWsMessage 1 [1] c3State (.sendMessage "B" "C" "hello") "msg1" 5).state.store.messages.map
        Message.senderId) = ["B"] := by
  decide

/-- C4 fixture: older message from A to B at ts 100. -/
def c4Msg1 : Message :=
  { id := "m1", senderId := "A", receiverId := "B", content := "hi", timestamp := 100 }

/-- C4 fixture: newer message from B to A at ts 200. -/
def c4Msg2 : Message :=
  { id := "m2", senderId := "B", receiverId := "A", content := "yo", timestamp := 200 }

/-- C4 fixture store. -/
def c4Store : Storage :=
  { users := [], profiles := [], sessions := [], messages := [c4Msg1, c4Msg2] }

/-- C4: evaluation at the failing input. The wired
getMessagesBetweenUsers of server/storage.ts takes no limit and no
before cursor and returns the pair's messages oldest-first: on a store
with messages at ts 100 and ts 200 it returns the ts-100 message first,
the opposite of the claimed newest-first cursor pagination. -/
theorem claim_C4 :
    getMessagesBetweenUsers c4Store "A" "B" = [c4Msg1, c4Msg2] ∧
    c4Msg1.timestamp < c4Msg2.timestamp := by
  decide

/-- Helper for C5: filtering out terminal sessions first does not change
the result of the conflict scan, because the scan's predicate already
rejects terminal sessions. -/
theorem any_conflictHit_filter (l : List Session) (u : Session → Bool)
    (wMs : Nat) (t : Int) :
    (l.filter u).any (conflictHit wMs t) =
      ((l.filter (fun s => !(isTerminal s))).filter u).any (conflictHit wMs t) := by
  induction l with
  | nil => rfl
  | cons x xs ih =>
      by_cases hu : u x = true <;> by_cases ht : isTerminal x = true <;>
        simp [List.filter_cons, hu, ht, ih, conflictHit]

/-- C5: cancelled or completed bookings never count toward a conflict:
the checker's result over any store equals its result over the store
with all terminal sessions removed, and a mentor all of whose bookings
are terminal never conflicts, even at the exact same instant. -/
theorem claim_C5 (w : Nat) (store : Storage) (m : String) (t : Int) :
    checkBookingConflict w store m t =
      checkBookingConflict w
        { store with sessions := store.sessions.filter (fun s => !(isTerminal s)) } m t ∧
    ((∀ s ∈ getUserSessions store m, isTerminal s = true) →
      checkBookingConflict w store m t = false) := by
  constructor
  · unfold checkBookingConflict getUserSessions
    exact any_conflictHit_filter store.sessions _ _ t
  · intro hall
    unfold checkBookingConflict
    rw [List.any_eq_false]
    intro s hs
    unfold conflictHit
    rw [hall s hs]
    simp

/-- C5 fixture: a cancelled booking for mentor m1 at instant 0. -/
def c5Session : Session :=
  { id := "s1", studentId := "st1", mentorId := "m1", subject := "Math",
    scheduledTime := 0, status := .cancelled }

/-- C5 fixture store. -/
def c5Store : Storage :=
  { users := [], profiles := [], sessions := [c5Session], messages := [] }

/-- C5 witness: with the conflicting booking cancelled, a new booking at
the exact same instant on the same mentor reports no conflict. -/
theorem claim_C5_witness :
    checkBookingConflict 30 c5Store "m1" 0 = false :=
  (claim_C5 30 c5Store "m1" 0).2 (by decide)

/-- Helper for C6: after deleting a key from the registry, looking that
key up yields nothing. -/
theorem regLookup_regDelete (r : Registry) (k : String) :
    regLookup (regDelete r k) k = none := by
  unfold regLookup regDelete
  have h : (r.filter (fun p => !(p.1 == k))).find? (fun p => p.1 == k) = none := by
    rw [List.find?_eq_none]
    intro x hx
    have hne := (List.mem_filter.mp hx).2
    simp only [Bool.not_eq_true'] at hne
    simp [hne]
  rw [h]
  rfl

/-- C6 fixture: connection 1 joined as user u, then connection 2 joined
as the same user (replacing the registry entry); the local userId
variable of connection 1 still holds u. -/
def c6State : WsState :=
  { localUserId := some "u",
    registry := regSet (regSet [] "u" 1) "u" 2,
    store := emptyStorage }

/-- C6 counterexample: user u is currently registered to connection 2,
yet the close of the stale connection 1 (which is not the registered
one) still evicts the entry — refuting the claim that the entry is
removed only if the closing connection is the registered one. -/
theorem claim_C6_counterexample :
    regLookup c6State.registry "u" = some 2 ∧
    (1 : Nat) ≠ 2 ∧
    regLookup (handleWsClose 1 c6State).registry "u" = none := by
  decide

/-- C6 amended: on socket close, if the connection-local userId is set,
the close handler of server/routes.ts unconditionally deletes that key
from the registry — regardless of which connection is currently
registered for it — so no entry for that user id survives; a stale
close therefore can evict a newer reconnection's entry. -/
theorem claim_C6 (st : WsState) (self : Nat) (uid : String)
    (h : st.localUserId = some uid) :
    (handleWsClose self st).registry = regDelete st.registry uid ∧
    regLookup (handleWsClose self st).registry uid = none := by
  unfold handleWsClose
  rw [h]
  exact ⟨rfl, regLookup_regDelete _ _⟩

/-- C6 witness: the amended claim applied to the fixture state: after
the stale close of connection 1, no entry for user u remains. -/
theorem claim_C6_witness :
    regLookup (handleWsClose 1 c6State).registry "u" = none :=
  (claim_C6 c6State 1 "u" rfl).2

/-- C7 fixture: a cancelled booking of student st1 with mentor m1. -/
def c7Session : Session :=
  { id := "s1", studentId := "st1", mentorId := "m1", subject := "Math",
    scheduledTime := 0, status := .cancelled }

/-- C7 fixture store. -/
def c7Store : Storage :=
  { users := [], profiles := [], sessions := [c7Session], messages := [] }

/-- C7 counterexample: the session is cancelled, yet the confirm
endpoint called by its mentor answers 200 and transitions the stored
session to confirmed — a transition out of the terminal status
cancelled, refuting the one-way claim. -/
theorem claim_C7_counterexample :
    (getSession c7Store "s1").map Session.status = some SessionStatus.cancelled ∧
    (confirmSessionRoute c7Store "m1" "s1").1.status = 200 ∧
    ((confirmSessionRoute c7Store "m1" "s1").1.body.map Session.status) =
        some SessionStatus.confirmed ∧
    ((confirmSessionRoute c7Store "m1" "s1").2.sessions.map Session.status) =
        [SessionStatus.confirmed] := by
  decide

/-- C7 amended: the confirm and cancel endpoints check only existence
and ownership, never the current status: for any stored session,
confirm by its mentor always answers 200 with the status overwritten to
confirmed, and cancel by either participant always answers 200 with the
status overwritten to cancelled — including from the terminal statuses
completed and cancelled, so status transitions are not one-way. -/
theorem claim_C7 (store : Storage) (callerId sid : String) (s : Session)
    (hfind : getSession store sid = some s) :
    (s.mentorId = callerId →
      (confirmSessionRoute store callerId sid).1 =
        { status := 200, body := some { s with status := SessionStatus.confirmed } }) ∧
    (s.studentId = callerId ∨ s.mentorId = callerId →
      (cancelSessionRoute store callerId sid).1 =
        { status := 200, body := some { s with status := SessionStatus.cancelled } }) := by
  have hfind2 : store.sessions.find? (fun x => x.id == sid) = some s := hfind
  constructor
  · intro hm
    unfold confirmSessionRoute
    rw [hfind]
    unfold updateSessionStatus
    rw [hfind2]
    simp [hm]
  · intro hp
    unfold cancelSessionRoute
    rw [hfind]
    unfold updateSessionStatus
    rw [hfind2]
    rcases hp with h | h <;> simp [h]

/-- C7 witness: the amended claim applied to the fixture: confirming the
cancelled fixture session as its mentor yields 200 and a confirmed
session. -/
theorem claim_C7_witness :
    (confirmSessionRoute c7Store "m1" "s1").1 =
      { status := 200, body := some { c7Session with status := SessionStatus.confirmed } } :=
  (claim_C7 c7Store "m1" "s1" c7Session (by decide)).1 rfl

/-- C8: registering a user with a submitted role and verifying the
issued access token (before its expiry) succeeds and returns a payload
carrying exactly the registered id, the submitted email and the
submitted role, with kind access: generateAccessToken followed by
verifyAccessToken round-trips id, email and role. -/
theorem claim_C8 (secret : String) (expiry now tv : Int) (store : Storage)
    (newId username email password : String) (role : Role)
    (h : tv < now + expiry) :
    verifyAccessToken secret tv
        (generateAccessToken secret expiry now
          ((createUser store newId username email password role).1)) =
      some { id := newId, email := email, role := role, type := .access,
             iat := now, exp := now + expiry } := by
  unfold createUser generateAccessToken verifyAccessToken verifyToken
  simp [h]

/-- C8 witness: concrete round-trip of a mentor registration, verified
at instant 10 with a 900-second expiry issued at instant 0. -/
theorem claim_C8_witness :
    verifyAccessToken "k" 10
        (generateAccessToken "k" 900 0
          ((createUser emptyStorage "u1" "alice" "alice@example.com" "hash"
              Role.mentor).1)) =
      some { id := "u1", email := "alice@example.com", role := .mentor,
             type := .access, iat := 0, exp := 0 + 900 } :=
  claim_C8 "k" 900 0 10 emptyStorage "u1" "alice" "alice@example.com" "hash"
    Role.mentor (by decide)

/-- Helper for C9: a string leaf has no object entries at all. -/
theorem hasNoKey_str (k s : String) : hasNoKey k (.str s) = true := by
  simp [hasNoKey]

/-- Helper for C9: unfolding hasNoKey on an object value. -/
theorem hasNoKey_obj (k : String) (fs : JsonFields) :
    hasNoKey k (.obj fs) = hasNoKeyFields k fs := by
  simp [hasNoKey]

/-- Helper for C9: unfolding hasNoKey on an array value. -/
theorem hasNoKey_arr (k : String) (xs : JsonList) :
    hasNoKey k (.arr xs) = hasNoKeyList k xs := by
  simp [hasNoKey]

/-- Helper for C9: unfolding hasNoKeyFields on an entry. -/
theorem hasNoKeyFields_cons (k key : String) (v : Json) (tl : JsonFields) :
    hasNoKeyFields k (.cons key v tl) =
      (!(key == k) && hasNoKey k v && hasNoKeyFields k tl) := by
  simp [hasNoKeyFields]

/-- Helper for C9: hasNoKeyFields on the empty entry list. -/
theorem hasNoKeyFields_nil (k : String) : hasNoKeyFields k .nil = true := by
  simp [hasNoKeyFields]

/-- Helper for C9: hasNoKeyFields distributes over field concatenation. -/
theorem hasNoKeyFields_append (k : String) :
    (a b : JsonFields) →
      hasNoKeyFields k (JsonFields.append a b) =
        (hasNoKeyFields k a && hasNoKeyFields k b)
  | .nil, b => by simp [JsonFields.append, hasNoKeyFields]
  | .cons key v tl, b => by
      simp [JsonFields.append, hasNoKeyFields_cons,
        hasNoKeyFields_append k tl b, Bool.and_assoc]

/-- Helper for C9: hasNoKeyList over a converted list is List.all. -/
theorem hasNoKeyList_ofList (k : String) (l : List Json) :
    hasNoKeyList k (JsonList.ofList l) = l.all (hasNoKey k) := by
  induction l with
  | nil => simp [JsonList.ofList, hasNoKeyList]
  | cons x xs ih => simp [JsonList.ofList, hasNoKeyList, ih]

/-- Helper for C9: an array of string leaves has no object entries. -/
theorem strList_noKey (k : String) (l : List String) :
    hasNoKeyList k (JsonList.ofList (l.map Json.str)) = true := by
  induction l with
  | nil => simp [JsonList.ofList, hasNoKeyList]
  | cons x xs ih => simp [JsonList.ofList, hasNoKeyList, hasNoKey, ih]

/-- Helper for C9: an array built by mapping a per-element password-free
serializer is password-free. -/
theorem arrMap_noKey {α : Type} (k : String) (f : α → Json) (l : List α)
    (hf : ∀ a, hasNoKey k (f a) = true) :
    hasNoKey k (Json.arr (JsonList.ofList (l.map f))) = true := by
  simp only [hasNoKey, hasNoKeyList_ofList]
  rw [List.all_eq_true]
  intro x hx
  obtain ⟨a, _, rfl⟩ := List.mem_map.mp hx
  simp [hf a]

/-- Helper for C9: the serialized optional string columns carry no
object entries. -/
theorem jsonOfOptStr_noKey (k : String) (o : Option String) :
    hasNoKey k (jsonOfOptStr o) = true := by
  cases o <;> simp [jsonOfOptStr, hasNoKey]

/-- Helper for C9: the password-stripped user spread has no entry named
password. -/
theorem publicUserFields_noPassword (u : User) :
    hasNoKeyFields "password" (publicUserFields u) = true := by
  simp [publicUserFields, hasNoKeyFields, hasNoKey]

/-- Helper for C9: a password-stripped serialized user has no password
entry. -/
theorem jsonOfPublicUser_noPassword (u : User) :
    hasNoKey "password" (jsonOfPublicUser u) = true := by
  simp [jsonOfPublicUser, hasNoKey, publicUserFields_noPassword]

/-- Helper for C9: a serialized profile has no password entry. -/
theorem jsonOfProfile_noPassword (p : Profile) :
    hasNoKey "password" (jsonOfProfile p) = true := by
  unfold jsonOfProfile
  cases hsub : p.subjects <;>
    simp [hasNoKey, hasNoKeyFields, jsonOfOptStr_noKey, strList_noKey]

/-- Helper for C9: serialized session entries carry no password entry. -/
theorem sessionFields_noPassword (s : Session) :
    hasNoKeyFields "password" (sessionFields s) = true := by
  simp [sessionFields, hasNoKeyFields, hasNoKey]

/-- Helper for C9: a mentor-with-profile element has no password entry. -/
theorem mentorWithProfileBody_noPassword (m : User) (p : Option Profile) :
    hasNoKey "password" (mentorWithProfileBody m p) = true := by
  cases p <;>
    simp [mentorWithProfileBody, hasNoKey_obj, hasNoKeyFields_append,
      publicUserFields_noPassword, hasNoKeyFields_cons, hasNoKeyFields_nil,
      jsonOfProfile_noPassword]

/-- Helper for C9: a session-with-users element has no password entry. -/
theorem sessionWithUsersBody_noPassword (store : Storage) (s : Session) :
    hasNoKey "password" (sessionWithUsersBody store s) = true := by
  unfold sessionWithUsersBody
  cases hst : getUser store s.studentId <;> cases hm : getUser store s.mentorId <;>
    simp [hasNoKey_obj, hasNoKeyFields_append, sessionFields_noPassword,
      hasNoKeyFields_cons, hasNoKeyFields_nil, jsonOfPublicUser_noPassword]

/-- C9: no success body of the endpoints of server/routes.ts that return
users — register, login, mentor listing and detail, sessions-with-users,
conversations, user lookup — contains an object entry named password,
for every store and every input: each handler strips the password field
before responding. -/
theorem claim_C9 (store : Storage) (u m : User) (token uid : String)
    (p : Option Profile) :
    hasNoKey "password" (registerResponseBody u token) = true ∧
    hasNoKey "password" (loginResponseBody u token) = true ∧
    hasNoKey "password" (mentorsResponseBody store) = true ∧
    hasNoKey "password" (mentorDetailResponseBody m p) = true ∧
    hasNoKey "password" (mySessionsResponseBody store uid) = true ∧
    hasNoKey "password" (conversationsResponseBody store uid) = true ∧
    hasNoKey "password" (userLookupResponseBody u) = true := by
  refine ⟨?_, ?_, ?_, ?_, ?_, ?_, ?_⟩
  · simp [registerResponseBody, hasNoKey_obj, hasNoKeyFields_cons,
      hasNoKeyFields_nil, jsonOfPublicUser_noPassword, hasNoKey_str]
  · simp [loginResponseBody, hasNoKey_obj, hasNoKeyFields_cons,
      hasNoKeyFields_nil, jsonOfPublicUser_noPassword, hasNoKey_str]
  · unfold mentorsResponseBody
    exact arrMap_noKey _ _ _
      (fun a => mentorWithProfileBody_noPassword a (getProfile store a.id))
  · exact mentorWithProfileBody_noPassword m p
  · unfold mySessionsResponseBody
    exact arrMap_noKey _ _ _ (fun a => sessionWithUsersBody_noPassword store a)
  · unfold conversationsResponseBody
    exact arrMap_noKey _ _ _ (fun a => jsonOfPublicUser_noPassword a)
  · exact jsonOfPublicUser_noPassword u

end MentorApp
